import Mathlib

/-!
Verification of the mutation-polling and confirmation workflow of the
ClickHouse metrics cleaner (`cleaner/clickhouse_cleaner.py`).

The Python script is embedded shallowly:
* A row of `system.mutations` becomes `MutationRecord`.  In the database's
  JSON output `parts_to_do` arrives as a string (the script calls `int` on
  it, which may raise `ValueError`), `is_done` as a number and
  `latest_failed_part` as a string.
* Exceptions become the `PyError` type: `runtimeError` is the
  `RuntimeError` raised by `execute_sql` on a non-success HTTP response
  (the spec's `QueryError`) and by the argument checks in `main`;
  `valueError` is the `ValueError` of a failed `int` parse;
  `noMoreFetches` is a model artifact meaning that the supplied finite
  trace of fetch results was exhausted while the polling loop still
  wanted to poll.
* Effectful functions return a pair of the list of observable events
  (queries issued, the confirmation prompt, lines printed) and either a
  value or the uncaught exception escaping the function.
* The outside world (HTTP responses, standard input) is passed in as an
  explicit environment `RunEnv`: the search result (the values of the key
  column), the operator's answer, the delete response body, and the
  successive results of the `system.mutations` fetches.
-/

/-- Exceptions of the embedded script. `runtimeError` is Python's
`RuntimeError` (raised by `execute_sql` for a non-success HTTP response —
the spec's `QueryError` — and by `main`'s argument checks), `valueError`
is the `ValueError` of a failed `int` parse, and `noMoreFetches` is a
model artifact: the finite fetch trace ran out while the loop would have
polled again. -/
inductive PyError where
  | runtimeError (msg : String)
  | valueError
  | noMoreFetches
deriving DecidableEq, Repr

/-- One row of `system.mutations` as the script sees it: `parts_to_do` is
a string (ClickHouse serializes UInt64 as a JSON string; the script parses
it with `int`), `is_done` a number, `latest_failed_part` a string. -/
structure MutationRecord where
  parts_to_do : String
  is_done : Int
  latest_failed_part : String
deriving DecidableEq, Repr

/-- Digit run of a decimal literal: accumulates the value and fails at the
first non-digit character. -/
def pyIntDigitsAux (acc : Nat) : List Char → Option Nat
  | [] => some acc
  | c :: rest => if c.isDigit then pyIntDigitsAux (10 * acc + (c.toNat - 48)) rest else none

/-- Python's `int(s)` for a decimal string: an optional sign followed by at
least one digit (the whitespace-stripping and underscore forms of Python's
`int` are left out; the claims only ever assume that parsing succeeds).
`none` models the raised `ValueError`. -/
def pyInt? (s : String) : Option Int :=
  match s.data with
  | [] => none
  | '-' :: rest => if rest.isEmpty then none else (pyIntDigitsAux 0 rest).map (fun n => -(n : Int))
  | '+' :: rest => if rest.isEmpty then none else (pyIntDigitsAux 0 rest).map (fun n => (n : Int))
  | cs => (pyIntDigitsAux 0 cs).map (fun n => (n : Int))

/-- The comprehension `len([i for i in data if int(i.get("parts_to_do")) > 0])`
from `mutation_status`: counts the records whose parsed `parts_to_do` is
positive, and fails (Python: raises `ValueError`) when some record's
`parts_to_do` does not parse as an integer.  Python's `int` is modelled by
`pyInt?`. -/
def in_progress_of : List MutationRecord → Option Nat
  | [] => some 0
  | i :: rest =>
    match pyInt? i.parts_to_do, in_progress_of rest with
    | some n, some k => some (if 0 < n then k + 1 else k)
    | _, _ => none

/-- `mutation_status(data)` from the script: the tuple
`(in_progress, total, completed, failed)` where `in_progress` counts
records with parsed `parts_to_do > 0`, `total` is the number of records,
`completed` counts records with `is_done == 1`, and `failed` counts
records with a non-empty `latest_failed_part`.  `none` models the
`ValueError` raised when some `parts_to_do` does not parse. -/
def mutation_status (data : List MutationRecord) : Option (Nat × Nat × Nat × Nat) :=
  match in_progress_of data with
  | none => none
  | some in_progress =>
    let total := data.length
    let completed := (data.filter (fun i => i.is_done == 1)).length
    let failed := (data.filter (fun i => i.latest_failed_part != "")).length
    some (in_progress, total, completed, failed)

/-- When every record's `parts_to_do` parses, `in_progress_of` is the
length of the filter by "parsed value positive". -/
theorem in_progress_of_eq_some (data : List MutationRecord)
    (h : ∀ r ∈ data, (pyInt? r.parts_to_do).isSome = true) :
    in_progress_of data =
      some ((data.filter (fun r => decide (0 < (pyInt? r.parts_to_do).getD 0))).length) := by
  induction data with
  | nil => rfl
  | cons a rest ih =>
    have ha := h a (List.mem_cons_self a rest)
    have hrest : ∀ r ∈ rest, (pyInt? r.parts_to_do).isSome = true :=
      fun r hr => h r (List.mem_cons_of_mem a hr)
    obtain ⟨n, hn⟩ := Option.isSome_iff_exists.mp ha
    rw [in_progress_of, hn, ih hrest]
    by_cases h0 : 0 < n
    · simp [List.filter_cons, hn, h0]
    · simp [List.filter_cons, hn, h0]

/-- When some record's `parts_to_do` does not parse, `in_progress_of`
fails (the script raises `ValueError`). -/
theorem in_progress_of_eq_none (data : List MutationRecord)
    (h : ¬ ∀ r ∈ data, (pyInt? r.parts_to_do).isSome = true) :
    in_progress_of data = none := by
  induction data with
  | nil => exact absurd (by intro r hr; cases hr) h
  | cons a rest ih =>
    by_cases ha : (pyInt? a.parts_to_do).isSome = true
    · obtain ⟨n, hn⟩ := Option.isSome_iff_exists.mp ha
      have hrest : ¬ ∀ r ∈ rest, (pyInt? r.parts_to_do).isSome = true := by
        intro hall
        exact h (fun r hr => by
          rcases List.mem_cons.mp hr with hr | hr
          · exact hr ▸ ha
          · exact hall r hr)
      rw [in_progress_of, hn, ih hrest]
    · have hnone : pyInt? a.parts_to_do = none := Option.not_isSome_iff_eq_none.mp ha
      rw [in_progress_of, hnone]

/-- C1: for every list of mutation records in which each record's
`parts_to_do` parses as an integer, `mutation_status` returns the tuple
whose `in_progress` component counts the records with parsed
`parts_to_do > 0`, whose `total` component is the length of the list,
whose `completed` component counts the records with `is_done` equal to 1,
and whose `failed` component counts the records with a non-empty
`latest_failed_part`. -/
theorem c1_mutation_status_counts (data : List MutationRecord)
    (h : ∀ r ∈ data, (pyInt? r.parts_to_do).isSome = true) :
    mutation_status data =
      some ((data.filter (fun r => decide (0 < (pyInt? r.parts_to_do).getD 0))).length,
            data.length,
            (data.filter (fun r => r.is_done == 1)).length,
            (data.filter (fun r => r.latest_failed_part != "")).length) := by
  rw [mutation_status, in_progress_of_eq_some data h]

/-- C1 witness: the counting law evaluated at a concrete record list. -/
theorem c1_mutation_status_counts_witness :
    mutation_status
        [⟨"2", 0, ""⟩, ⟨"0", 1, ""⟩, ⟨"0", 1, "part_3_3_0"⟩] =
      some (([⟨"2", 0, ""⟩, ⟨"0", 1, ""⟩, (⟨"0", 1, "part_3_3_0"⟩ : MutationRecord)].filter
              (fun r => decide (0 < (pyInt? r.parts_to_do).getD 0))).length,
            3,
            ([⟨"2", 0, ""⟩, ⟨"0", 1, ""⟩, (⟨"0", 1, "part_3_3_0"⟩ : MutationRecord)].filter
              (fun r => r.is_done == 1)).length,
            ([⟨"2", 0, ""⟩, ⟨"0", 1, ""⟩, (⟨"0", 1, "part_3_3_0"⟩ : MutationRecord)].filter
              (fun r => r.latest_failed_part != "")).length) :=
  c1_mutation_status_counts
    [⟨"2", 0, ""⟩, ⟨"0", 1, ""⟩, ⟨"0", 1, "part_3_3_0"⟩] (by decide)

/-- C6: `mutation_status` is invariant under permutation of the record
list: a permuted list yields the same `(in_progress, total, completed,
failed)` tuple. -/
theorem c6_mutation_status_perm (data data' : List MutationRecord)
    (h : data.Perm data') :
    mutation_status data = mutation_status data' := by
  by_cases hall : ∀ r ∈ data, (pyInt? r.parts_to_do).isSome = true
  · have hall' : ∀ r ∈ data', (pyInt? r.parts_to_do).isSome = true :=
      fun r hr => hall r (h.mem_iff.mpr hr)
    rw [mutation_status, mutation_status,
      in_progress_of_eq_some data hall, in_progress_of_eq_some data' hall']
    have hc : ∀ p : MutationRecord → Bool,
        (data.filter p).length = (data'.filter p).length := by
      intro p
      rw [← List.countP_eq_length_filter, ← List.countP_eq_length_filter]
      exact h.countP_eq p
    simp only [hc, h.length_eq]
  · have hall' : ¬ ∀ r ∈ data', (pyInt? r.parts_to_do).isSome = true :=
      fun hx => hall (fun r hr => hx r (h.mem_iff.mp hr))
    rw [mutation_status, mutation_status,
      in_progress_of_eq_none data hall, in_progress_of_eq_none data' hall']

/-- C6 witness: order-invariance at a concrete two-record list and its
swap. -/
theorem c6_mutation_status_perm_witness :
    mutation_status [⟨"1", 0, ""⟩, ⟨"0", 1, "p"⟩] =
      mutation_status [⟨"0", 1, "p"⟩, ⟨"1", 0, ""⟩] :=
  c6_mutation_status_perm _ _ (List.Perm.swap _ _ _)

/-- Python `str.lower()` on one character, for the ASCII and basic
Cyrillic letters (all the confirmation answers the script accepts fall in
these ranges). -/
def pyLowerChar (c : Char) : Char :=
  if ('A' ≤ c ∧ c ≤ 'Z') ∨ ('А' ≤ c ∧ c ≤ 'Я') then Char.ofNat (c.toNat + 32) else c

/-- Python `str.lower()`, character by character. -/
def pyLower (s : String) : String := String.mk (s.data.map pyLowerChar)

/-- Python `str.upper()` on one character, for the ASCII letters (the
script only upper-cases color names, which are ASCII). -/
def pyUpperChar (c : Char) : Char :=
  if 'a' ≤ c ∧ c ≤ 'z' then Char.ofNat (c.toNat - 32) else c

/-- Python `str.upper()`, character by character. -/
def pyUpper (s : String) : String := String.mk (s.data.map pyUpperChar)

/-- The ANSI code of a color name of the `Color` class (after
upper-casing, as `Color.make` does via `getattr`).  For a name that is
not an attribute of the class the source raises `ValueError`; no call
site of the script passes one, and the model maps such names to an empty
code. -/
def Color.codeOf (color : String) : String :=
  match pyUpper color with
  | "RED" => "\x1b[91m"
  | "GREEN" => "\x1b[92m"
  | "YELLOW" => "\x1b[93m"
  | "BLUE" => "\x1b[94m"
  | "MAGNETA" => "\x1b[95m"
  | "CYAN" => "\x1b[96m"
  | "WHITE" => "\x1b[97m"
  | "GREY" => "\x1b[90m"
  | _ => ""

/-- `Color.make(target, color)` for a string target: an empty (falsy)
target is returned unchanged, otherwise the color code and the `END`
reset code are wrapped around it. -/
def Color.make (target : String) (color : String) : String :=
  if target = "" then target
  else Color.codeOf color ++ target ++ "\x1b[0m"

/-- Observable actions of the workflow: the search and delete statements
handed to `execute_sql`, the confirmation prompt (`input`), one fetch of
`system.mutations`, and each line handed to `print`. -/
inductive Event where
  | searchQuery (q : String)
  | deleteQuery (q : String)
  | promptConfirm
  | mutationFetch
  | print (line : String)
deriving DecidableEq, Repr

/-- Whether an event is a fetch of `system.mutations`. -/
def Event.isFetch : Event → Bool
  | .mutationFetch => true
  | _ => false

/-- Number of `system.mutations` fetches in a trace. -/
def fetchCount (events : List Event) : Nat := events.countP Event.isFetch

/-- The search statement built by `get_data`. -/
def get_data_query (pfx key database table : String) : String :=
  "SELECT DISTINCT " ++ key ++ " FROM " ++ database ++ "." ++ table ++
    " WHERE match(" ++ key ++ ", '^" ++ pfx ++ "')"

/-- The delete statement built by `delete_data`. -/
def delete_query (pfx key database table : String) : String :=
  "ALTER TABLE " ++ database ++ "." ++ table ++
    " DELETE WHERE match(" ++ key ++ ", '^" ++ pfx ++ "')"

/-- The value `execute_sql` returns in text mode: `r.text or status`,
where `status` is `True` whenever no exception was raised — so the
response body when it is non-empty, and the boolean `True` otherwise. -/
inductive PyTextResult where
  | text (s : String)
  | status (b : Bool)
deriving DecidableEq, Repr

/-- Python truthiness of the text-mode result. -/
def PyTextResult.truthy : PyTextResult → Bool
  | .text s => s != ""
  | .status b => b

/-- `return r.text or status` with `status = True`. -/
def execute_sql_text (body : String) : PyTextResult :=
  if body != "" then .text body else .status true

/-- `get_data`: issues the search statement and returns the pair
`(message, matches)` — `matches` is `None` when the result set is empty,
otherwise the newline-joined bullet list of the distinct key values.
The oracle `searchResult` stands for `execute_sql(query)` with the key
column already projected out; a `PyError` is the uncaught exception of
that call. -/
def get_data (searchResult : Except PyError (List String))
    (pfx key database table : String) :
    List Event × Except PyError (String × Option String) :=
  let q := get_data_query pfx key database table
  match searchResult with
  | .error e => ([Event.searchQuery q], .error e)
  | .ok result =>
    let matched := String.intercalate "\n" (result.map (fun path => "- " ++ path))
    if result.isEmpty then
      ([Event.searchQuery q],
       .ok (Color.make ("No matches were found for the prefix '" ++ pfx ++ "'") "grey", none))
    else
      ([Event.searchQuery q],
       .ok (Color.make ("\nMatches found for the prefix '" ++ pfx ++ "' (unique keys count: " ++
              toString result.length ++ ")") "green", some matched))

/-- `delete_data`: issues the delete statement and prints the OK line
when the text-mode result is truthy, the failure line otherwise.  The
oracle `deleteResult` stands for `execute_sql(query, result_format="text")`:
the response body on success, or the raised error. -/
def delete_data (deleteResult : Except PyError String)
    (pfx key database table : String) :
    List Event × Except PyError Unit :=
  let q := delete_query pfx key database table
  let metadata := "source=" ++ database ++ "." ++ table ++ " key=" ++ key ++ ", prefix=" ++ pfx
  match deleteResult with
  | .error e => ([Event.deleteQuery q], .error e)
  | .ok body =>
    if (execute_sql_text body).truthy then
      ([Event.deleteQuery q, Event.print (metadata ++ " " ++ Color.make "- OK" "green")], .ok ())
    else
      ([Event.deleteQuery q,
        Event.print (Color.make ("Something went wrong... [" ++ metadata ++ "]") "red")], .ok ())

/-- The `while in_progress != 0 and failed == 0` loop of
`check_mutations`: each iteration fetches the mutation table again and
rebinds `in_progress`, `total` and `failed` — the third component of the
freshly computed tuple is bound to the otherwise unused name `success`,
so `completed` keeps the value computed before the loop.  The result is
the loop's trace together with the tuple the variables hold at exit;
exhausting the finite fetch trace while the loop still wants to poll is
the model artifact `noMoreFetches`.  The half-second sleep between polls
is not modelled. -/
def poll_loop (fetches : List (Except PyError (List MutationRecord)))
    (in_progress total completed failed : Nat) :
    List Event × Except PyError (Nat × Nat × Nat × Nat) :=
  if in_progress ≠ 0 ∧ failed = 0 then
    match fetches with
    | [] => ([], .error .noMoreFetches)
    | .error e :: _ => ([Event.mutationFetch], .error e)
    | .ok result :: rest =>
      match mutation_status result with
      | none => ([Event.mutationFetch], .error .valueError)
      | some (ip, tot, _success, fl) =>
        let r := poll_loop rest ip tot completed fl
        (Event.mutationFetch :: r.1, r.2)
  else
    ([], .ok (in_progress, total, completed, failed))

/-- `check_mutations`: one initial fetch and summary, the optional
polling loop when `await_complete`, then the status report.  `fetches`
is the trace of successive `execute_sql(query)` results for the
`system.mutations` query (whose today-filtered text is abstracted into
the oracle).  The returned tuple is `(in_progress, total, completed,
failed)` as the report prints them. -/
def check_mutations (fetches : List (Except PyError (List MutationRecord)))
    (await_complete pretty : Bool) (database table : String) :
    List Event × Except PyError (Nat × Nat × Nat × Nat) :=
  match fetches with
  | [] => ([], .error .noMoreFetches)
  | .error e :: _ => ([Event.mutationFetch], .error e)
  | .ok result :: rest =>
    match mutation_status result with
    | none => ([Event.mutationFetch], .error .valueError)
    | some (in_progress, total, completed, failed) =>
      let looped :=
        if await_complete then
          let r := poll_loop rest in_progress total completed failed
          (Event.print (Color.make "\nWaiting for the mutation to complete..." "grey") :: r.1,
           r.2)
        else ([], .ok (in_progress, total, completed, failed))
      match looped.2 with
      | .error e => (Event.mutationFetch :: looped.1, .error e)
      | .ok (ip, tot, comp, fl) =>
        let failLine :=
          if fl > 0 then
            [Event.print (Color.make
              "One of the mutations failed with an error. Use clickhouse-client for details."
              "red")]
          else []
        let header :=
          [Event.print (Color.make ("\nMutation status for '" ++ database ++ "." ++ table ++ "'")
             "cyan"),
           Event.print (String.mk (List.replicate 40 '-'))]
        let body :=
          if pretty then
            [Event.print ("In Progress: " ++ toString ip ++ " \nFailed: " ++ toString fl ++ "\n")]
          else
            [Event.print ("In Progress: " ++ toString ip ++ " \nCompleted: " ++ toString comp ++
               " \nFailed: " ++ toString fl ++ " \nTotal: " ++ toString tot ++ "\n")]
        (Event.mutationFetch :: looped.1 ++ failLine ++ header ++ body, .ok (ip, tot, comp, fl))

/-- The outside world as `run` sees it for one (prefix, table) pair:
the search result (the distinct values of the key column), the
operator's answer to the confirmation prompt, the delete response body,
and the successive results of the `system.mutations` fetches. -/
structure RunEnv where
  searchResult : Except PyError (List String)
  answer : String
  deleteText : Except PyError String
  fetches : List (Except PyError (List MutationRecord))

/-- The affirmative answers `["y", "yes", "да", "д"]` the script accepts
after lower-casing the operator's input. -/
def accepted_answers : List String := ["y", "yes", "да", "д"]

/-- `run`: the Interactive Workflow for one (prefix, table) pair.  In
force mode it only attempts the delete, printing a caught `RuntimeError`
and — in the `finally` block, whose `return` also swallows any other
in-flight exception — the started-a-mutation line.  Otherwise it
searches, returns early on no match, prompts, and on an affirmative
answer runs the delete and the mutation check inside one
`except RuntimeError` handler.  The result's second component is `ok`
when `run` returns normally and the uncaught exception otherwise. -/
def run (env : RunEnv) (pfx key database table : String)
    (force_delete await_complete : Bool) :
    List Event × Except PyError Unit :=
  if force_delete then
    let d := delete_data env.deleteText pfx key database table
    let handled :=
      match d.2 with
      | .ok _ => d.1
      | .error (.runtimeError msg) => d.1 ++ [Event.print (Color.make msg "red")]
      | .error _ => d.1
    (handled ++ [Event.print (Color.make
        ("Started a mutation for delete match(" ++ key ++ ", '^" ++ pfx ++ "') in " ++
          database ++ "." ++ table) "grey")],
     .ok ())
  else
    let g := get_data env.searchResult pfx key database table
    match g.2 with
    | .error e => (g.1, .error e)
    | .ok (message, none) => (g.1 ++ [Event.print message], .ok ())
    | .ok (message, some matched) =>
      let ev := g.1 ++ [Event.print (message ++ "\n" ++ matched), Event.promptConfirm]
      if pyLower env.answer ∈ accepted_answers then
        let d := delete_data env.deleteText pfx key database table
        match d.2 with
        | .error (.runtimeError msg) =>
          (ev ++ d.1 ++ [Event.print (Color.make msg "red")], .ok ())
        | .error e => (ev ++ d.1, .error e)
        | .ok _ =>
          let c := check_mutations env.fetches await_complete true database table
          match c.2 with
          | .ok _ => (ev ++ d.1 ++ c.1, .ok ())
          | .error (.runtimeError msg) =>
            (ev ++ d.1 ++ c.1 ++ [Event.print (Color.make msg "red")], .ok ())
          | .error e => (ev ++ d.1 ++ c.1, .error e)
      else
        (ev ++ [Event.print (Color.make ("Deletion canceled for the prefix '" ++ pfx ++ "'")
           "red")],
         .ok ())

/-- Python `str.split(sep)` for a one-character separator, over the
character list: always yields at least one piece, with `[""]` for the
empty string. -/
def pySplitChars (sep : Char) : List Char → List (List Char)
  | [] => [[]]
  | c :: rest =>
    match pySplitChars sep rest with
    | [] => [[c]]
    | h :: t => if c = sep then [] :: h :: t else (c :: h) :: t

/-- Python `s.split(sep)` for a one-character separator (the script only
ever splits on a comma). -/
def pySplit (sep : Char) (s : String) : List String :=
  (pySplitChars sep s.data).map (fun cs => String.mk cs)

/-- The condition of `main`'s "Prefix required" check:
`not prefixes and not args.checkout_only` where
`prefixes = args.prefix.split(",")`. -/
def pfx_required_check (pfxValue : String) (checkout_only : Bool) : Bool :=
  (pySplit ',' pfxValue).isEmpty && !checkout_only

/-- The message of the mutual-exclusion argument error in `main`. -/
def flags_conflict_message : String :=
  "'--force', '--await-mutation-end' and '--checkout-only' can't be passed together."

/-- The command-line arguments `main` consults.  `pfxValue` is the raw
`--prefix` value (the source's `args.prefix`); `table` the raw `--table`
value; the remaining fields are the three boolean flags.  The `--key` and
`--database` values are resolved against the config before any check and
are passed to `main` already resolved. -/
structure Args where
  pfxValue : String
  table : String
  checkout_only : Bool
  await_mutation_end : Bool
  force : Bool
deriving DecidableEq, Repr

/-- The nested `for prefix in prefixes: for table in tables:` loop of
`main`: runs the Interactive Workflow on each (prefix, table) pair in
order, stopping at the first uncaught exception. -/
def run_batch (envOf : String → String → RunEnv) (key database : String)
    (force await : Bool) : List (String × String) → List Event × Except PyError Unit
  | [] => ([], .ok ())
  | (p, t) :: rest =>
    let r := run (envOf p t) p key database t force await
    match r.2 with
    | .ok _ =>
      let r' := run_batch envOf key database force await rest
      (r.1 ++ r'.1, r'.2)
    | .error e => (r.1, .error e)

/-- The `for table in tables:` loop of `main`'s checkout-only branch:
`check_mutations(database, table, pretty=False)` on each table in order,
stopping at the first uncaught exception. -/
def checkout_batch (checkoutFetches : String → List (Except PyError (List MutationRecord)))
    (database : String) : List String → List Event × Except PyError Unit
  | [] => ([], .ok ())
  | t :: rest =>
    let c := check_mutations (checkoutFetches t) false false database t
    match c.2 with
    | .ok _ =>
      let r := checkout_batch checkoutFetches database rest
      (c.1 ++ r.1, r.2)
    | .error e => (c.1, .error e)

/-- `main` of the script (named `py_main` here because `main` is reserved
for executables): splits the prefix and table lists, runs the three argument
checks in source order (table required; prefix required unless checkout
only; the flag-conflict check, whose condition is, with Python's
precedence, `(force and checkout_only) or (await_mutation_end and
force)`), then either the checkout-only loop or the nested run loop
followed, in force mode, by the closing hint line.  `match_key` and
`database` arrive already resolved against the config; `envOf` gives the
per-(prefix, table) environment and `checkoutFetches` the per-table fetch
trace of the checkout branch. -/
def py_main (args : Args) (match_key database : String)
    (envOf : String → String → RunEnv)
    (checkoutFetches : String → List (Except PyError (List MutationRecord))) :
    List Event × Except PyError Unit :=
  let pfxs := pySplit ',' args.pfxValue
  let tables := pySplit ',' args.table
  if args.table = "" then
    ([], .error (.runtimeError "Table required, but no received. Use --table arg or --help"))
  else if pfx_required_check args.pfxValue args.checkout_only then
    ([], .error (.runtimeError "Prefix required, but not received. Use --prefix arg or --help"))
  else if (args.force && args.checkout_only) || (args.await_mutation_end && args.force) then
    ([], .error (.runtimeError flags_conflict_message))
  else if args.checkout_only then
    checkout_batch checkoutFetches database tables
  else
    let pairs := (pfxs.map (fun p => tables.map (fun t => (p, t)))).flatten
    let r := run_batch envOf match_key database args.force args.await_mutation_end pairs
    match r.2 with
    | .ok _ =>
      (r.1 ++
        (if args.force then
          [Event.print
            ("---" ++ "\n" ++
              "For check the mutation status use the argument '--checkout-only' or '-S'")]
        else []),
       .ok ())
    | .error e => (r.1, .error e)

/-- The text-mode result of a successful `execute_sql` call is always
truthy: a non-empty body is a truthy string, an empty one falls back to
the boolean `True` status. -/
theorem execute_sql_text_truthy (body : String) :
    (execute_sql_text body).truthy = true := by
  by_cases h : body = "" <;> simp [execute_sql_text, PyTextResult.truthy, h]

/-- A successful delete returns normally whatever the response body. -/
theorem delete_data_snd_ok (body pfx key database table : String) :
    (delete_data (.ok body) pfx key database table).2 = .ok () := by
  simp only [delete_data]
  split <;> rfl

/-- `pySplitChars` always yields at least one piece. -/
theorem pySplitChars_ne_nil (sep : Char) (cs : List Char) : pySplitChars sep cs ≠ [] := by
  cases cs with
  | nil => simp [pySplitChars]
  | cons c rest =>
    rw [pySplitChars]
    cases hx : pySplitChars sep rest with
    | nil => simp
    | cons h t => by_cases hc : c = sep <;> simp [hc]

/-- `pySplit` always yields at least one piece, so Python's
`s.split(",")` is never the empty (falsy) list. -/
theorem pySplit_ne_nil (sep : Char) (s : String) : pySplit sep s ≠ [] := by
  rw [pySplit]
  intro hmap
  exact pySplitChars_ne_nil sep s.data (List.map_eq_nil_iff.mp hmap)

/-- The "Prefix required" condition of `main` is false for every prefix
value: the split list is never empty. -/
theorem pfx_required_check_false (s : String) (b : Bool) :
    pfx_required_check s b = false := by
  rw [pfx_required_check]
  cases hx : pySplit ',' s with
  | nil => exact absurd hx (pySplit_ne_nil ',' s)
  | cons h t => simp

/-- C2: when `check_mutations` runs with `await_complete` and the
successive fetches summarize to `in_progress = 1, failed = 0`, then
`in_progress = 1, failed = 0`, then `in_progress = 0`, exactly three
fetches happen — the initial one plus two loop-body ones — and the loop
exits normally. -/
theorem c2_three_fetches (f1 f2 f3 : List MutationRecord)
    (t1 c1 t2 c2 t3 c3 fl3 : Nat)
    (h1 : mutation_status f1 = some (1, t1, c1, 0))
    (h2 : mutation_status f2 = some (1, t2, c2, 0))
    (h3 : mutation_status f3 = some (0, t3, c3, fl3))
    (pretty : Bool) (database table : String) :
    fetchCount (check_mutations [.ok f1, .ok f2, .ok f3] true pretty database table).1 = 3
    ∧ (check_mutations [.ok f1, .ok f2, .ok f3] true pretty database table).2
        = .ok (0, t3, c1, fl3) := by
  cases pretty <;>
    simp [check_mutations, h1, h2, h3, poll_loop, fetchCount, Event.isFetch,
      List.countP_cons, List.countP_append]

/-- C2 witness: the three-fetch law at a concrete fetch trace. -/
theorem c2_three_fetches_witness :
    fetchCount (check_mutations
        [.ok [⟨"1", 0, ""⟩], .ok [⟨"1", 0, ""⟩], .ok [⟨"0", 1, ""⟩]]
        true true "db" "events").1 = 3
    ∧ (check_mutations
        [.ok [⟨"1", 0, ""⟩], .ok [⟨"1", 0, ""⟩], .ok [⟨"0", 1, ""⟩]]
        true true "db" "events").2 = .ok (0, 1, 0, 0) :=
  c2_three_fetches [⟨"1", 0, ""⟩] [⟨"1", 0, ""⟩] [⟨"0", 1, ""⟩]
    1 0 1 0 1 1 0 (by decide) (by decide) (by decide) true "db" "events"

/-- C5 (code bug): inside the polling loop the freshly computed third
component of `mutation_status` is bound to the unused name `success`, so
the reported `completed` keeps the value of the first fetch.  Here the
first fetch has one running, zero completed mutation and the final fetch
has that mutation completed, yet the reported tuple says `completed = 0`
while `mutation_status` of the final record set says `completed = 1`. -/
theorem c5_completed_is_stale :
    (check_mutations [.ok [⟨"1", 0, ""⟩], .ok [⟨"0", 1, ""⟩]]
        true false "db" "events").2 = .ok (0, 1, 0, 0)
    ∧ mutation_status [⟨"0", 1, ""⟩] = some (0, 1, 1, 0) :=
  ⟨rfl, rfl⟩

/-- C3 counterexample: a QueryError raised by the mutation fetch during
the polling that follows a confirmed delete IS caught — `check_mutations`
sits inside `run`'s `except RuntimeError` block — so `run` returns
normally instead of terminating the run as the claim states. -/
theorem c3_polling_error_is_caught :
    (run ⟨.ok ["row1"], "y", .ok "", [.error (.runtimeError "HTTP 500")]⟩
        "pfx" "Path" "db" "events" false true).2 = .ok () := rfl

/-- C3 (amended): a QueryError raised by a mutation fetch after a
confirmed delete is caught by `run`'s `except RuntimeError` handler (the
same one that covers the delete), so `run` returns normally; only in
checkout-only mode, where `main` calls `check_mutations` with no handler,
does a fetch QueryError propagate and terminate the run. -/
theorem c3_amended_polling_error_scopes (env : RunEnv)
    (pfx key database table : String) (await : Bool) (msg body : String)
    (rows : List String) (hrows : rows ≠ [])
    (hsearch : env.searchResult = .ok rows)
    (hans : pyLower env.answer ∈ accepted_answers)
    (hdel : env.deleteText = .ok body)
    (hfetch : env.fetches = [.error (.runtimeError msg)]) :
    (run env pfx key database table false await).2 = .ok ()
    ∧ ∀ (cf : String → List (Except PyError (List MutationRecord))) (rest : List String),
        cf table = [.error (.runtimeError msg)] →
        (checkout_batch cf database (table :: rest)).2 = .error (.runtimeError msg) := by
  constructor
  · rcases rows with _ | ⟨a, as⟩
    · exact absurd rfl hrows
    · simp [run, get_data, hsearch, hans, hdel, hfetch,
        delete_data_snd_ok, check_mutations]
  · intro cf rest hcf
    simp [checkout_batch, check_mutations, hcf]

/-- C3 witness: the amended error scopes at concrete inputs — the caught
polling error after a confirmed delete, and the propagating one of the
checkout loop. -/
theorem c3_amended_polling_error_scopes_witness :
    (run ⟨.ok ["a"], "y", .ok "", [.error (.runtimeError "boom")]⟩
        "p" "k" "d" "t" false true).2 = .ok ()
    ∧ (checkout_batch (fun _ => [.error (.runtimeError "boom")]) "d" ["t"]).2
        = .error (.runtimeError "boom") :=
  ⟨(c3_amended_polling_error_scopes
      ⟨.ok ["a"], "y", .ok "", [.error (.runtimeError "boom")]⟩
      "p" "k" "d" "t" true "boom" "" ["a"] (by simp) rfl (by decide) rfl rfl).1,
   (c3_amended_polling_error_scopes
      ⟨.ok ["a"], "y", .ok "", [.error (.runtimeError "boom")]⟩
      "p" "k" "d" "t" true "boom" "" ["a"] (by simp) rfl (by decide) rfl rfl).2
     (fun _ => [.error (.runtimeError "boom")]) [] rfl⟩

/-- C4 counterexample: a QueryError raised while executing the search
query is NOT caught inside `run` — `get_data` sits outside the
`try/except` — so it propagates out of `run`, contrary to the claim. -/
theorem c4_search_error_propagates :
    (run ⟨.error (.runtimeError "HTTP 500"), "y", .ok "", []⟩
        "pfx" "Path" "db" "events" false false).2
      = .error (.runtimeError "HTTP 500") := rfl

/-- C4 (amended): in the non-force Interactive Workflow a QueryError
raised by the delete query is caught inside `run`, which returns
normally, so the batch loop of `main` continues with the next
(prefix, table) pair; a QueryError raised by the search query, however,
propagates out of `run` and aborts the batch loop. -/
theorem c4_amended_error_scopes (envOf : String → String → RunEnv)
    (key database : String) (await : Bool) (p t : String)
    (rest : List (String × String)) (msg : String) :
    ((envOf p t).searchResult = .error (.runtimeError msg) →
      (run_batch envOf key database false await ((p, t) :: rest)).2
        = .error (.runtimeError msg))
    ∧ (∀ rows, rows ≠ [] →
        (envOf p t).searchResult = .ok rows →
        pyLower (envOf p t).answer ∈ accepted_answers →
        (envOf p t).deleteText = .error (.runtimeError msg) →
        (run (envOf p t) p key database t false await).2 = .ok ()
        ∧ (run_batch envOf key database false await ((p, t) :: rest)).2
            = (run_batch envOf key database false await rest).2) := by
  constructor
  · intro hsearch
    simp [run_batch, run, get_data, hsearch]
  · intro rows hrows hsearch hans hdel
    rcases rows with _ | ⟨a, as⟩
    · exact absurd rfl hrows
    · have hok : (run (envOf p t) p key database t false await).2 = .ok () := by
        simp [run, get_data, delete_data, hsearch, hans, hdel]
      refine ⟨hok, ?_⟩
      simp [run_batch, hok]

/-- C4 witness: the amended error scopes at concrete inputs — one pair
whose search fails aborts the batch, one pair whose delete fails is
caught and the batch continues. -/
theorem c4_amended_error_scopes_witness :
    ((run_batch (fun _ _ => ⟨.error (.runtimeError "boom"), "y", .ok "", []⟩)
        "k" "d" false false [("p", "t")]).2 = .error (.runtimeError "boom"))
    ∧ (run (⟨.ok ["a"], "y", .error (.runtimeError "boom"), []⟩ : RunEnv)
          "p" "k" "d" "t" false false).2 = .ok ()
    ∧ (run_batch (fun _ _ => ⟨.ok ["a"], "y", .error (.runtimeError "boom"), []⟩)
        "k" "d" false false [("p", "t"), ("p2", "t2")]).2
      = (run_batch (fun _ _ => ⟨.ok ["a"], "y", .error (.runtimeError "boom"), []⟩)
        "k" "d" false false [("p2", "t2")]).2 :=
  ⟨(c4_amended_error_scopes (fun _ _ => ⟨.error (.runtimeError "boom"), "y", .ok "", []⟩)
      "k" "d" false "p" "t" [] "boom").1 rfl,
   (c4_amended_error_scopes (fun _ _ => ⟨.ok ["a"], "y", .error (.runtimeError "boom"), []⟩)
      "k" "d" false "p" "t" [("p2", "t2")] "boom").2 ["a"] (by simp) rfl (by decide) rfl⟩

/-- C7: when the search result set is empty, the non-force workflow
neither reads a confirmation answer nor issues a delete statement — `run`
prints the no-match line and returns. -/
theorem c7_no_match_no_prompt_no_delete (env : RunEnv)
    (pfx key database table : String) (await : Bool)
    (h : env.searchResult = .ok []) :
    Event.promptConfirm ∉ (run env pfx key database table false await).1
    ∧ ∀ q, Event.deleteQuery q ∉ (run env pfx key database table false await).1 := by
  simp [run, get_data, h]

/-- C7 witness: the empty-search-result law at a concrete environment. -/
theorem c7_no_match_no_prompt_no_delete_witness :
    Event.promptConfirm ∉
      (run ⟨.ok [], "y", .ok "", []⟩ "p" "k" "d" "t" false false).1
    ∧ ∀ q, Event.deleteQuery q ∉
        (run ⟨.ok [], "y", .ok "", []⟩ "p" "k" "d" "t" false false).1 :=
  c7_no_match_no_prompt_no_delete ⟨.ok [], "y", .ok "", []⟩ "p" "k" "d" "t" false rfl

/-- C8 counterexample: `--checkout-only` together with
`--await-mutation-end` (without `--force`) does NOT raise the argument
error — with Python's precedence the check is
`(force and checkout_only) or (await_mutation_end and force)` — and
`main` proceeds into the checkout loop and returns normally. -/
theorem c8_checkout_with_await_accepted :
    (py_main ⟨"", "events", true, true, false⟩ "Path" "db"
        (fun _ _ => ⟨.ok [], "", .ok "", []⟩) (fun _ => [.ok []])).2 = .ok () := rfl

/-- C8 (amended): `main` raises the mutual-exclusion argument error — 
before issuing any query — exactly for `--force` with `--checkout-only`
and for `--force` with `--await-mutation-end`; `--checkout-only` with
`--await-mutation-end` alone is accepted and proceeds into the
checkout-only loop (where the await flag has no effect). -/
theorem c8_amended_flag_conflicts (args : Args) (key database : String)
    (envOf : String → String → RunEnv)
    (cf : String → List (Except PyError (List MutationRecord)))
    (ht : args.table ≠ "") :
    (((args.force = true ∧ args.checkout_only = true) ∨
        (args.await_mutation_end = true ∧ args.force = true)) →
      py_main args key database envOf cf
        = ([], .error (.runtimeError flags_conflict_message)))
    ∧ ((args.checkout_only = true ∧ args.await_mutation_end = true ∧ args.force = false) →
      py_main args key database envOf cf
        = checkout_batch cf database (pySplit ',' args.table)) := by
  constructor
  · rintro (⟨hf, hc⟩ | ⟨ha, hf⟩)
    · simp [py_main, ht, pfx_required_check_false, hf, hc]
    · simp [py_main, ht, pfx_required_check_false, hf, ha]
  · rintro ⟨hc, ha, hf⟩
    simp [py_main, ht, pfx_required_check_false, hf, hc, ha]

/-- C8 witness: the amended flag law at concrete argument vectors — 
force with checkout-only errors out, checkout-only with await proceeds
to the checkout loop. -/
theorem c8_amended_flag_conflicts_witness :
    py_main ⟨"", "events", true, false, true⟩ "Path" "db"
        (fun _ _ => ⟨.ok [], "", .ok "", []⟩) (fun _ => [.ok []])
      = ([], .error (.runtimeError flags_conflict_message))
    ∧ py_main ⟨"", "events", true, true, false⟩ "Path" "db"
        (fun _ _ => ⟨.ok [], "", .ok "", []⟩) (fun _ => [.ok []])
      = checkout_batch (fun _ => [.ok []]) "db" (pySplit ',' "events") :=
  ⟨(c8_amended_flag_conflicts ⟨"", "events", true, false, true⟩ "Path" "db"
      (fun _ _ => ⟨.ok [], "", .ok "", []⟩) (fun _ => [.ok []]) (by decide)).1
      (Or.inl ⟨rfl, rfl⟩),
   (c8_amended_flag_conflicts ⟨"", "events", true, true, false⟩ "Path" "db"
      (fun _ _ => ⟨.ok [], "", .ok "", []⟩) (fun _ => [.ok []]) (by decide)).2
      ⟨rfl, rfl, rfl⟩⟩

/-- C9: for every `--prefix` value the Python split yields a non-empty
list, so the "Prefix required" branch of `main` is unreachable (its
condition is false for every prefix value and flag), and with the
default empty prefix the search statement carries the bare regex
anchor `'^'`. -/
theorem c9_split_nonempty_default_matches_all
    (p key database table : String) (checkout : Bool) :
    pySplit ',' p ≠ []
    ∧ pfx_required_check p checkout = false
    ∧ get_data_query "" key database table
        = "SELECT DISTINCT " ++ key ++ " FROM " ++ database ++ "." ++ table ++
            " WHERE match(" ++ key ++ ", '^')" := by
  refine ⟨pySplit_ne_nil ',' p, pfx_required_check_false p checkout, ?_⟩
  apply String.ext
  simp [get_data_query, String.data_append]

/-- C10: in force mode `run` catches a delete QueryError and prints it,
always prints the started-a-mutation line, and returns normally without
issuing a search query, prompting for confirmation, or fetching mutation
status. -/
theorem c10_force_delete_scope (env : RunEnv)
    (pfx key database table : String) (await : Bool) :
    (run env pfx key database table true await).2 = .ok ()
    ∧ Event.print (Color.make
        ("Started a mutation for delete match(" ++ key ++ ", '^" ++ pfx ++ "') in " ++
          database ++ "." ++ table) "grey") ∈ (run env pfx key database table true await).1
    ∧ (∀ q, Event.searchQuery q ∉ (run env pfx key database table true await).1)
    ∧ Event.promptConfirm ∉ (run env pfx key database table true await).1
    ∧ Event.mutationFetch ∉ (run env pfx key database table true await).1
    ∧ ∀ msg, env.deleteText = .error (.runtimeError msg) →
        Event.print (Color.make msg "red") ∈ (run env pfx key database table true await).1 := by
  rcases hdel : env.deleteText with e | body
  · rcases e with m | _ | _ <;>
      simp [run, delete_data, hdel]
  · by_cases hb : body = "" <;>
      simp [run, delete_data, hdel, execute_sql_text, PyTextResult.truthy, hb]

/-- C10 witness: the force-mode law at a concrete environment whose
delete fails with a QueryError. -/
theorem c10_force_delete_scope_witness :
    (run ⟨.ok [], "", .error (.runtimeError "boom"), []⟩ "p" "k" "d" "t" true false).2 = .ok ()
    ∧ Event.print (Color.make
        ("Started a mutation for delete match(" ++ "k" ++ ", '^" ++ "p" ++ "') in " ++
          "d" ++ "." ++ "t") "grey")
        ∈ (run ⟨.ok [], "", .error (.runtimeError "boom"), []⟩ "p" "k" "d" "t" true false).1
    ∧ Event.print (Color.make "boom" "red")
        ∈ (run ⟨.ok [], "", .error (.runtimeError "boom"), []⟩ "p" "k" "d" "t" true false).1 :=
  ⟨(c10_force_delete_scope ⟨.ok [], "", .error (.runtimeError "boom"), []⟩
      "p" "k" "d" "t" false).1,
   (c10_force_delete_scope ⟨.ok [], "", .error (.runtimeError "boom"), []⟩
      "p" "k" "d" "t" false).2.1,
   (c10_force_delete_scope ⟨.ok [], "", .error (.runtimeError "boom"), []⟩
      "p" "k" "d" "t" false).2.2.2.2.2 "boom" rfl⟩
